import Mathlib

/-!
Shallow embedding of the BreakTheICX moderation bot (`bot.py`): the
sliding-window flood tracker, the ban→flood→filter moderation pipeline of
`check_messages`, the admin gate and `add_filter` command, and the
name-history recorder.  Message timestamps (Python floats from
`time.monotonic()`) are modelled by an arbitrary linearly ordered additive
group `T`; chat and user ids are integers; firebase store reads are
explicit inputs, with `Except` for reads that may raise.
-/

section Embedding

variable {T : Type} [LinearOrderedAddCommGroup T]

/-- Truthiness-based fallback of Python `a or b` for optional strings, as
in `message.text or message.caption or ""`. -/
def pyOrStr (a : Option String) (b : String) : String :=
  match a with
  | some s => if s = "" then b else s
  | none => b

/-- `message.text or message.caption or ""` from `check_messages`. -/
def textOrCaption (t c : Option String) : String :=
  pyOrStr t (pyOrStr c "")

/-- Python `str.lower()` (per character, as the bot uses it on triggers and
message text). -/
def strLower (s : String) : String :=
  ⟨s.data.map Char.toLower⟩

/-- Whitespace recognised by Python `str.strip()`. -/
def isSpaceChar (c : Char) : Bool :=
  c = ' ' || c = '\t' || c = '\n' || c = '\r' || c.toNat = 11 || c.toNat = 12

/-- Python `str.strip()`. -/
def pyStrip (s : String) : String :=
  ⟨((s.data.dropWhile isSpaceChar).reverse.dropWhile isSpaceChar).reverse⟩

/-- Python substring test `needle in hay`. -/
def strContains (hay needle : String) : Bool :=
  (List.range (hay.data.length + 1)).any
    (fun i => needle.data.isPrefixOf (hay.data.drop i))

/-- FLOOD_WINDOW_SECONDS from bot.py (in the integer-time instantiation). -/
def FLOOD_WINDOW_SECONDS : ℤ := 10

/-- DEFAULT_FLOOD_LIMIT from bot.py. -/
def DEFAULT_FLOOD_LIMIT : ℕ := 5

/-- The in-process flood-tracking state: the window length and the map
from `(chat_id, user_id)` keys to the per-key timestamp queue
(`FloodTracker.events`; `none` models an absent key). -/
structure FloodTracker (T : Type) where
  window : T
  events : ℤ × ℤ → Option (List T)

/-- The `while queue and queue[0] <= cutoff: queue.popleft()` loop of
`FloodTracker.increment`: evict from the front while the head is `≤ cutoff`. -/
def evictLoop (cutoff : T) : List T → List T
  | [] => []
  | t :: rest => if t ≤ cutoff then evictLoop cutoff rest else t :: rest

/-- `FloodTracker.increment(chat_id, user_id, now)`: append `now` to the
key's queue (creating it if absent), evict stale entries from the front,
drop the key and return 0 if the queue emptied, else return its length. -/
def FloodTracker.increment (st : FloodTracker T) (chatId userId : ℤ) (now : T) :
    ℕ × FloodTracker T :=
  let key := (chatId, userId)
  let queue := ((st.events key).getD []) ++ [now]
  let cutoff := now - st.window
  let queue2 := evictLoop cutoff queue
  if queue2 = [] then
    (0, ⟨st.window, fun k => if k = key then none else st.events k⟩)
  else
    (queue2.length, ⟨st.window, fun k => if k = key then some queue2 else st.events k⟩)

/-- `_is_banned`: truthiness of the blacklist read, `False` when the read
raises (the `except` branch). -/
def isBanned : Except Unit Bool → Bool
  | .ok b => b
  | .error _ => false

/-- Parsing of the raw `flood_limit` setting in `check_messages`:
`int(...)` failure (`none`) or a non-positive value fall back to
DEFAULT_FLOOD_LIMIT. -/
def parseFloodLimit (raw : Option ℤ) : ℕ :=
  match raw with
  | none => DEFAULT_FLOOD_LIMIT
  | some n => if n ≤ 0 then DEFAULT_FLOOD_LIMIT else n.toNat

/-- The filter-matching loop of `check_messages`: first entry (in the
mapping's iteration order) whose lowercased trigger is nonempty and a
substring of the lowered text yields its reply. -/
def filterScan (fm : List (String × String)) (lowered : String) : Option String :=
  match fm with
  | [] => none
  | p :: rest =>
    if (!(strLower p.1).isEmpty) && strContains lowered (strLower p.1) then some p.2
    else filterScan rest lowered

/-- The store reads `check_messages` performs for one message, with
`Except` for reads whose firebase call may raise. -/
structure StoreView where
  blacklistRead : Except Unit Bool
  floodLimitRead : Option ℤ
  settingsFilters : List (String × String)
  filtersRead : Except Unit (List (String × String))

/-- The filter mapping `check_messages` ends up scanning: the one embedded
in the settings payload if nonempty, else the dedicated `_get_filters`
read (empty when that read raises). -/
def effectiveFilters (sv : StoreView) : List (String × String) :=
  if sv.settingsFilters ≠ [] then sv.settingsFilters
  else
    match sv.filtersRead with
    | .ok fm => fm
    | .error _ => []

/-- One incoming message event as `check_messages` sees it
(`isService` covers the `new_chat_members`/`left_chat_member` guard). -/
structure Msg where
  chatId : ℤ
  userId : ℤ
  isBot : Bool
  isService : Bool
  text : Option String
  caption : Option String

/-- Pipeline stages reached while processing one message. -/
inductive Stage where
  | banCheck
  | floodIncrement
  | filterEval
deriving DecidableEq

/-- Platform actions the pipeline can emit. -/
inductive BotAction where
  | removeMember (chatId userId : ℤ)
  | restrictMember (chatId userId : ℤ)
  | sendReply (text : String)
deriving DecidableEq

/-- Result of processing one message: the stages reached, the platform
actions emitted, the flood count (when the flood stage ran) and the
updated tracker. -/
structure ModResult (T : Type) where
  trace : List Stage
  actions : List BotAction
  floodCount : Option ℕ
  tracker : FloodTracker T

/-- `check_messages`: skip bots and service messages; ban check (remove
member and stop when banned); flood check (mute and stop when the count
exceeds the limit — the window is not touched further); filter scan
(reply with the first match, if any). -/
def checkMessages (tracker : FloodTracker T) (sv : StoreView) (msg : Msg) (now : T) :
    ModResult T :=
  if msg.isBot || msg.isService then ⟨[], [], none, tracker⟩
  else if isBanned sv.blacklistRead then
    ⟨[Stage.banCheck], [BotAction.removeMember msg.chatId msg.userId], none, tracker⟩
  else
    let res := tracker.increment msg.chatId msg.userId now
    if parseFloodLimit sv.floodLimitRead < res.1 then
      ⟨[Stage.banCheck, Stage.floodIncrement],
        [BotAction.restrictMember msg.chatId msg.userId], some res.1, res.2⟩
    else
      ⟨[Stage.banCheck, Stage.floodIncrement, Stage.filterEval],
        (filterScan (effectiveFilters sv)
          (strLower (textOrCaption msg.text msg.caption))).elim []
          (fun r => [BotAction.sendReply r]),
        some res.1, res.2⟩

/-- Run `check_messages` on a sequence of arrivals of the same message
shape at the given timestamps, threading the tracker state. -/
def runMessages (tracker : FloodTracker T) (sv : StoreView) (msg : Msg) :
    List T → List (ModResult T)
  | [] => []
  | t :: ts =>
    let r := checkMessages tracker sv msg t
    r :: runMessages r.tracker sv msg ts

/-- The traces the pipeline can produce, in stage order: ban check first,
then flood increment, then filter evaluation. -/
def orderedTrace (t : List Stage) : Prop :=
  t = [] ∨ t = [Stage.banCheck] ∨ t = [Stage.banCheck, Stage.floodIncrement] ∨
    t = [Stage.banCheck, Stage.floodIncrement, Stage.filterEval]

end Embedding

/-- Replies a command handler can produce (only the shapes the embedded
handlers distinguish). -/
inductive Response where
  | denial
  | usage
  | success
  | failure
deriving DecidableEq

/-- `_is_admin`: truthiness of the `admins/{user_id}` read, `False` when
the read raises (the `except` branch). -/
def isAdminOfRead : Except Unit Bool → Bool
  | .ok b => b
  | .error _ => false

/-- The firebase-backed store state the embedded command handlers touch:
the global admin set (ids whose `admins/{id}` value is truthy) and the
per-chat tables. -/
structure Store where
  admins : List ℤ
  chatFilters : ℤ → List (String × String)
  floodLimitOf : ℤ → Option ℤ
  blacklistOf : ℤ → List ℤ
  historyOf : ℤ → List String

/-- A successful (non-raising) `admins/{user_id}` read against the store. -/
def goodAdminRead (s : Store) (userId : ℤ) : Except Unit Bool :=
  .ok (s.admins.contains userId)

/-- Firebase `set` on `filters/{trigger}`: overwrite the entry for the
trigger, or add it. -/
def setAssoc (l : List (String × String)) (k v : String) :
    List (String × String) :=
  if l.any (fun p => p.1 = k) then
    l.map (fun p => if p.1 = k then (k, v) else p)
  else l ++ [(k, v)]

/-- The part of `add_filter` after the admin gate: argument checks, then
the `_set_filter` write (`setOk` tells whether the firebase call
succeeds). -/
def addFilterBody (chatId : ℤ) (args : List String) (setOk : Bool)
    (s : Store) : Response × Store :=
  if args.length < 2 then (Response.usage, s)
  else
    let trigger := strLower (pyStrip (args.headD ""))
    let reply := pyStrip (String.intercalate " " (args.drop 1))
    if trigger.isEmpty || reply.isEmpty then (Response.usage, s)
    else if setOk then
      (Response.success,
        { s with
          chatFilters := fun c =>
            if c = chatId then setAssoc (s.chatFilters c) trigger reply
            else s.chatFilters c })
    else (Response.failure, s)

/-- The `_ensure_admin` pattern shared by every admin command handler:
run the body only when the gate passes, else reply with the denial
message and do nothing. -/
def gatedCommand (adminRead : Except Unit Bool)
    (body : Store → Response × Store) (s : Store) : Response × Store :=
  if isAdminOfRead adminRead then body s else (Response.denial, s)

/-- The `add_filter` command handler: admin gate, then the body. -/
def addFilter (s : Store) (adminRead : Except Unit Bool) (chatId : ℤ)
    (args : List String) (setOk : Bool) : Response × Store :=
  gatedCommand adminRead (addFilterBody chatId args setOk) s

/-- `history_to_list` on the list-shaped payload: keep the truthy
(nonempty) entries; `none` models an absent node. -/
def historyToList (raw : Option (List String)) : List String :=
  match raw with
  | none => []
  | some l => l.filter (fun s => !s.isEmpty)

/-- A telegram user as `_append_name_history` reads it. -/
structure TgUser where
  id : ℤ
  firstName : Option String
  lastName : Option String
  username : Option String
  isBot : Bool

/-- The formatted display name `_append_name_history` builds:
`"{entry.strip() or first_name or 'Unknown'} ({username or no_username})"`. -/
def formattedName (u : TgUser) : String :=
  let entry := String.intercalate " "
    (([u.firstName.getD "", u.lastName.getD ""]).filter (fun s => !s.isEmpty))
  let base :=
    if !(pyStrip entry).isEmpty then pyStrip entry
    else if !(u.firstName.getD "").isEmpty then u.firstName.getD ""
    else "Unknown"
  let uname :=
    if !(u.username.getD "").isEmpty then "@" ++ u.username.getD ""
    else "no_username"
  base ++ " (" ++ uname ++ ")"

/-- `_append_name_history`: skip bots; push the formatted name onto the
user's raw history unless it equals the most recent (truthy) entry. -/
def appendNameHistory (u : TgUser) (raw : List String) : List String :=
  if u.isBot then raw
  else
    let formatted := formattedName u
    if (historyToList (some raw)).getLast? = some formatted then raw
    else raw ++ [formatted]

/-- Modelled from the spec: strict front eviction, "evict from the front
every entry `< now - 10s`" — kept separate from the source's `evictLoop`
(which evicts entries `≤ now - 10s`) for comparison. -/
def evictStrictSpec {T : Type} [LinearOrderedAddCommGroup T] (cutoff : T) :
    List T → List T
  | [] => []
  | t :: rest => if t < cutoff then evictStrictSpec cutoff rest else t :: rest

/-- Code-point-wise lexicographic comparison of character lists, as Python
compares strings. -/
def charListLtB : List Char → List Char → Bool
  | [], [] => false
  | [], _ :: _ => true
  | _ :: _, [] => false
  | a :: as, b :: bs =>
    if a.toNat < b.toNat then true
    else if b.toNat < a.toNat then false
    else charListLtB as bs

/-- Python string `<`. -/
def strLtB (a b : String) : Bool := charListLtB a.data b.data

/-- Insertion step for sorting filter entries by trigger. -/
def insertByTrigger (x : String × String) :
    List (String × String) → List (String × String)
  | [] => [x]
  | y :: ys => if strLtB x.1 y.1 then x :: y :: ys else y :: insertByTrigger x ys

/-- Insertion sort of filter entries by trigger. -/
def sortByTrigger : List (String × String) → List (String × String)
  | [] => []
  | x :: xs => insertByTrigger x (sortByTrigger xs)

/-- Modelled from the spec: filter matching over the triggers "in
lexicographic (sorted) order" — kept separate from the source's
`filterScan` (which scans in the mapping's iteration order) for
comparison. -/
def filterScanLexSpec (fm : List (String × String)) (lowered : String) :
    Option String :=
  filterScan (sortByTrigger fm) lowered

/-- Fresh tracker with the 10-second window, as built in `__init__`. -/
def tracker0 : FloodTracker ℤ :=
  ⟨FLOOD_WINDOW_SECONDS, fun _ => none⟩

/-- Store view for the flood scenarios: not banned, `flood_limit = 3`,
no filters. -/
def svFlood : StoreView :=
  ⟨.ok false, some 3, [], .ok []⟩

/-- A plain text message from user 2 in chat 1. -/
def msgFlood : Msg :=
  ⟨1, 2, false, false, some "hello", none⟩

/-- Tracker holding one stale-boundary timestamp for key (1, 2). -/
def trackerBoundary : FloodTracker ℤ :=
  ⟨FLOOD_WINDOW_SECONDS, fun k => if k = (1, 2) then some [0] else none⟩

/-- Store view with two filters whose iteration order differs from the
trigger-sorted order. -/
def svFilters : StoreView :=
  ⟨.ok false, some 5, [("bb", "replyB"), ("aa", "replyA")], .ok []⟩

/-- A message whose text matches both configured triggers. -/
def msgFilters : Msg :=
  ⟨1, 2, false, false, some "aa bb", none⟩

/-- A store whose only admin is user 1. -/
def store0 : Store :=
  ⟨[1], fun _ => [], fun _ => none, fun _ => [], fun _ => []⟩

section FloodLemmas

variable {T : Type} [LinearOrderedAddCommGroup T]

lemma evictLoop_ne_nil {cutoff now : T} (h : cutoff < now) (q : List T) :
    evictLoop cutoff (q ++ [now]) ≠ [] := by
  induction q with
  | nil => simp [evictLoop, not_le.mpr h]
  | cons t rest ih => by_cases hc : t ≤ cutoff <;> simp [evictLoop, hc, ih]

lemma evictLoop_head_gt {cutoff : T} {l : List T} {h : T} {rest : List T}
    (he : evictLoop cutoff l = h :: rest) : cutoff < h := by
  induction l with
  | nil => simp [evictLoop] at he
  | cons t ts ih =>
    rw [evictLoop] at he
    split at he
    · exact ih he
    · next hn =>
      cases he
      exact lt_of_not_le hn

lemma evictLoop_append {cutoff now : T} (h : cutoff < now) (q : List T) :
    evictLoop cutoff (q ++ [now]) = evictLoop cutoff q ++ [now] := by
  induction q with
  | nil => simp [evictLoop, not_le.mpr h]
  | cons t rest ih => by_cases hc : t ≤ cutoff <;> simp [evictLoop, hc, ih]

lemma evictLoop_eq_self {cutoff : T} {l : List T}
    (h : ∀ x, l.head? = some x → cutoff < x) : evictLoop cutoff l = l := by
  cases l with
  | nil => rfl
  | cons t rest => simp [evictLoop, not_le.mpr (h t rfl)]

lemma evictLoop_drop (cutoff : T) (l : List T) :
    ∃ k, evictLoop cutoff l = l.drop k ∧ ∀ x ∈ l.take k, x ≤ cutoff := by
  induction l with
  | nil => exact ⟨0, rfl, by simp⟩
  | cons t rest ih =>
    by_cases hc : t ≤ cutoff
    · obtain ⟨k, hk, hall⟩ := ih
      refine ⟨k + 1, by simpa [evictLoop, hc] using hk, ?_⟩
      intro x hx
      rw [List.take_succ_cons, List.mem_cons] at hx
      rcases hx with rfl | hx
      · exact hc
      · exact hall x hx
    · exact ⟨0, by simp [evictLoop, hc], by simp⟩

lemma increment_spec (st : FloodTracker T) (c u : ℤ) (now : T)
    (hw : 0 < st.window) :
    (st.increment c u now).1 =
      (evictLoop (now - st.window) ((st.events (c, u)).getD [])).length + 1 ∧
    (st.increment c u now).2.events (c, u) =
      some (evictLoop (now - st.window) ((st.events (c, u)).getD []) ++ [now]) ∧
    (st.increment c u now).2.window = st.window := by
  have hlt : now - st.window < now := sub_lt_self now hw
  have happ := evictLoop_append hlt ((st.events (c, u)).getD [])
  have hne := evictLoop_ne_nil hlt ((st.events (c, u)).getD [])
  unfold FloodTracker.increment
  simp [hne, happ]

lemma increment_increment (st : FloodTracker T) (c u : ℤ) (now : T)
    (hw : 0 < st.window) :
    ((st.increment c u now).2.increment c u now).1 =
      (st.increment c u now).1 + 1 := by
  obtain ⟨h1, h2, h3⟩ := increment_spec st c u now hw
  obtain ⟨h1', _, _⟩ :=
    increment_spec (st.increment c u now).2 c u now (h3 ▸ hw)
  rw [h3, h2] at h1'
  have hfix : evictLoop (now - st.window)
      (evictLoop (now - st.window) ((st.events (c, u)).getD []) ++ [now]) =
      evictLoop (now - st.window) ((st.events (c, u)).getD []) ++ [now] := by
    apply evictLoop_eq_self
    intro x hx
    cases hq : evictLoop (now - st.window) ((st.events (c, u)).getD []) with
    | nil =>
      rw [hq] at hx
      simp at hx
      subst hx
      exact sub_lt_self now hw
    | cons h t =>
      rw [hq] at hx
      simp at hx
      subst hx
      exact evictLoop_head_gt hq
  rw [Option.getD_some, hfix] at h1'
  rw [h1', h1]
  simp

end FloodLemmas

/-- C3 counterexample: the claim's strict eviction predicts count 2 for a
key holding timestamp 0 when a message arrives at time 10 with the
10-second window (the boundary entry `0 = now - 10` would be retained),
but `increment` evicts the boundary entry and returns 1. -/
theorem increment_strict_eviction_cex :
    (trackerBoundary.increment 1 2 10).1 = 1 ∧
    (evictStrictSpec ((10 : ℤ) - FLOOD_WINDOW_SECONDS) ([0] ++ [10])).length = 2 ∧
    (1 : ℕ) ≠ 2 := by
  decide

/-- C3 (amended): `increment(chat_id, user_id, now)` with a positive
window appends `now` at the back, evicts from the front a prefix of the
old queue all of whose entries are `≤ now - window` (non-strict), keeps
the rest followed by `now`, and returns the length of the result. -/
theorem increment_appends_evicts_counts {T : Type} [LinearOrderedAddCommGroup T]
    (st : FloodTracker T) (c u : ℤ) (now : T) (hw : 0 < st.window) :
    (st.increment c u now).1 =
      (evictLoop (now - st.window) ((st.events (c, u)).getD [])).length + 1 ∧
    (st.increment c u now).2.events (c, u) =
      some (evictLoop (now - st.window) ((st.events (c, u)).getD []) ++ [now]) ∧
    ∃ k, evictLoop (now - st.window) ((st.events (c, u)).getD []) =
        ((st.events (c, u)).getD []).drop k ∧
      ∀ x ∈ ((st.events (c, u)).getD []).take k, x ≤ now - st.window := by
  obtain ⟨h1, h2, _⟩ := increment_spec st c u now hw
  exact ⟨h1, h2, evictLoop_drop _ _⟩

/-- C3 witness: the amended statement at the boundary tracker, window 10,
arrival time 10. -/
theorem increment_appends_evicts_counts_witness :
    (trackerBoundary.increment 1 2 10).1 =
      (evictLoop ((10 : ℤ) - trackerBoundary.window)
        ((trackerBoundary.events (1, 2)).getD [])).length + 1 ∧
    (trackerBoundary.increment 1 2 10).2.events (1, 2) =
      some (evictLoop ((10 : ℤ) - trackerBoundary.window)
        ((trackerBoundary.events (1, 2)).getD []) ++ [10]) ∧
    ∃ k, evictLoop ((10 : ℤ) - trackerBoundary.window)
        ((trackerBoundary.events (1, 2)).getD []) =
        ((trackerBoundary.events (1, 2)).getD []).drop k ∧
      ∀ x ∈ ((trackerBoundary.events (1, 2)).getD []).take k,
        x ≤ (10 : ℤ) - trackerBoundary.window :=
  increment_appends_evicts_counts trackerBoundary 1 2 10 (by decide)

/-- C8: with a positive window, `increment` always returns a count of at
least 1 and never takes the key-removal branch: the freshly appended
`now` survives eviction. -/
theorem increment_positive_count {T : Type} [LinearOrderedAddCommGroup T]
    (st : FloodTracker T) (c u : ℤ) (now : T) (hw : 0 < st.window) :
    1 ≤ (st.increment c u now).1 ∧
    (st.increment c u now).2.events (c, u) ≠ none := by
  obtain ⟨h1, h2, _⟩ := increment_spec st c u now hw
  refine ⟨by omega, ?_⟩
  rw [h2]
  simp

/-- C8 witness: the positive-count statement at a fresh 10-second tracker
for key (1, 2) at time 0. -/
theorem increment_positive_count_witness :
    1 ≤ (tracker0.increment 1 2 0).1 ∧
    (tracker0.increment 1 2 0).2.events (1, 2) ≠ none :=
  increment_positive_count tracker0 1 2 0 (by decide)

section PipelineLemmas

variable {T : Type} [LinearOrderedAddCommGroup T]

lemma checkMessages_flood (tracker : FloodTracker T) (sv : StoreView)
    (msg : Msg) (now : T) (hb : msg.isBot = false) (hs : msg.isService = false)
    (hban : isBanned sv.blacklistRead = false) :
    (checkMessages tracker sv msg now).floodCount =
      some (tracker.increment msg.chatId msg.userId now).1 ∧
    (checkMessages tracker sv msg now).tracker =
      (tracker.increment msg.chatId msg.userId now).2 ∧
    (parseFloodLimit sv.floodLimitRead <
        (tracker.increment msg.chatId msg.userId now).1 →
      (checkMessages tracker sv msg now).actions =
        [BotAction.restrictMember msg.chatId msg.userId]) := by
  unfold checkMessages
  rw [hb, hs, hban]
  by_cases hl : parseFloodLimit sv.floodLimitRead <
      (tracker.increment msg.chatId msg.userId now).1 <;>
    simp [hl]

end PipelineLemmas

/-- C2: for every non-service message from a non-bot sender the pipeline
trace respects the ban-then-flood-then-filter stage order, and a
blacklisted sender yields exactly one remove-member action, an untouched
flood tracker, and no flood or filter stage at all. -/
theorem ban_before_flood_before_filter {T : Type} [LinearOrderedAddCommGroup T]
    (tracker : FloodTracker T) (sv : StoreView) (msg : Msg) (now : T)
    (hb : msg.isBot = false) (hs : msg.isService = false) :
    orderedTrace (checkMessages tracker sv msg now).trace ∧
    (isBanned sv.blacklistRead = true →
      checkMessages tracker sv msg now =
        ⟨[Stage.banCheck], [BotAction.removeMember msg.chatId msg.userId],
          none, tracker⟩) := by
  constructor
  · unfold checkMessages orderedTrace
    rw [hb, hs]
    by_cases hban : isBanned sv.blacklistRead <;>
      by_cases hl : parseFloodLimit sv.floodLimitRead <
          (tracker.increment msg.chatId msg.userId now).1 <;>
      simp [hban, hl]
  · intro hban
    unfold checkMessages
    rw [hb, hs, hban]
    simp

/-- C2 witness: a blacklisted sender's message at a concrete tracker and
store view. -/
theorem ban_before_flood_before_filter_witness :
    orderedTrace (checkMessages tracker0
      ⟨.ok true, some 3, [], .ok []⟩ msgFlood (0 : ℤ)).trace ∧
    (isBanned (Except.ok true : Except Unit Bool) = true →
      checkMessages tracker0 ⟨.ok true, some 3, [], .ok []⟩ msgFlood (0 : ℤ) =
        ⟨[Stage.banCheck], [BotAction.removeMember msgFlood.chatId msgFlood.userId],
          none, tracker0⟩) :=
  ban_before_flood_before_filter tracker0 ⟨.ok true, some 3, [], .ok []⟩
    msgFlood 0 (by decide) (by decide)

/-- C4: with `flood_limit = 3`, four messages from the same (chat, user)
key at times 0, 1, 2, 3 yield flood counts 1, 2, 3, 4, and only the
fourth produces a mute (restrict-member) action. -/
theorem flood_limit_three_scenario :
    ((runMessages tracker0 svFlood msgFlood
        ([0, 1, 2, 3] : List ℤ)).map ModResult.floodCount) =
      [some 1, some 2, some 3, some 4] ∧
    ((runMessages tracker0 svFlood msgFlood
        ([0, 1, 2, 3] : List ℤ)).map ModResult.actions) =
      [[], [], [], [BotAction.restrictMember 1 2]] := by
  decide

/-- C1 counterexample: running five messages at times 0..4 with
`flood_limit = 3`, the fourth triggers the mute but the fifth — sent
immediately afterwards — yields flood count 5, not 1, and is muted again;
the key's window is not reset to empty. -/
theorem flood_mute_no_reset_cex :
    ((runMessages tracker0 svFlood msgFlood
        ([0, 1, 2, 3, 4] : List ℤ)).map ModResult.floodCount) =
      [some 1, some 2, some 3, some 4, some 5] ∧
    ((runMessages tracker0 svFlood msgFlood
        ([0, 1, 2, 3, 4] : List ℤ)).map ModResult.actions) =
      [[], [], [], [BotAction.restrictMember 1 2],
        [BotAction.restrictMember 1 2]] ∧
    (some 5 : Option ℕ) ≠ some 1 := by
  decide

/-- C1 (amended): after a flood mute the pipeline does not reset the
key's window: the timestamps survive in the tracker, and a further
message sent immediately afterwards from the same key yields count c + 1
and produces a repeat mute. -/
theorem flood_mute_repeat_after_mute {T : Type} [LinearOrderedAddCommGroup T]
    (tracker : FloodTracker T) (sv : StoreView) (msg : Msg) (now : T) (c : ℕ)
    (hb : msg.isBot = false) (hs : msg.isService = false)
    (hban : isBanned sv.blacklistRead = false) (hw : 0 < tracker.window)
    (hc : (checkMessages tracker sv msg now).floodCount = some c)
    (hlim : parseFloodLimit sv.floodLimitRead < c) :
    (checkMessages tracker sv msg now).actions =
      [BotAction.restrictMember msg.chatId msg.userId] ∧
    (checkMessages tracker sv msg now).tracker.events (msg.chatId, msg.userId) ≠
      none ∧
    (checkMessages (checkMessages tracker sv msg now).tracker sv msg
        now).floodCount = some (c + 1) ∧
    (checkMessages (checkMessages tracker sv msg now).tracker sv msg
        now).actions = [BotAction.restrictMember msg.chatId msg.userId] := by
  obtain ⟨h1, h2, h3⟩ := checkMessages_flood tracker sv msg now hb hs hban
  rw [h1] at hc
  have hceq : (tracker.increment msg.chatId msg.userId now).1 = c :=
    Option.some_injective _ hc
  have hlim1 : parseFloodLimit sv.floodLimitRead <
      (tracker.increment msg.chatId msg.userId now).1 := hceq ▸ hlim
  obtain ⟨hT1, hT2, hT3⟩ :=
    increment_spec tracker msg.chatId msg.userId now hw
  obtain ⟨h1', h2', h3'⟩ :=
    checkMessages_flood (checkMessages tracker sv msg now).tracker sv msg now
      hb hs hban
  have hw2 : 0 < (checkMessages tracker sv msg now).tracker.window := by
    rw [h2, hT3]; exact hw
  have hdouble := increment_increment tracker msg.chatId msg.userId now hw
  refine ⟨h3 hlim1, ?_, ?_, ?_⟩
  · rw [h2, hT2]
    simp
  · rw [h1', h2, hdouble, hceq]
  · apply h3'
    rw [h2, hdouble, hceq]
    omega

/-- C1 witness: the amended statement at the concrete flood scenario —
the tracker state reached after the three messages at times 0, 1, 2,
receiving the fourth and fifth messages at time 3. -/
theorem flood_mute_repeat_after_mute_witness :
    (checkMessages
        ⟨10, fun k => if k = (1, 2) then some [0, 1, 2] else none⟩
        svFlood msgFlood (3 : ℤ)).actions =
      [BotAction.restrictMember msgFlood.chatId msgFlood.userId] ∧
    (checkMessages
        ⟨10, fun k => if k = (1, 2) then some [0, 1, 2] else none⟩
        svFlood msgFlood (3 : ℤ)).tracker.events
      (msgFlood.chatId, msgFlood.userId) ≠ none ∧
    (checkMessages (checkMessages
        ⟨10, fun k => if k = (1, 2) then some [0, 1, 2] else none⟩
        svFlood msgFlood (3 : ℤ)).tracker svFlood msgFlood (3 : ℤ)).floodCount =
      some (4 + 1) ∧
    (checkMessages (checkMessages
        ⟨10, fun k => if k = (1, 2) then some [0, 1, 2] else none⟩
        svFlood msgFlood (3 : ℤ)).tracker svFlood msgFlood (3 : ℤ)).actions =
      [BotAction.restrictMember msgFlood.chatId msgFlood.userId] :=
  flood_mute_repeat_after_mute
    ⟨10, fun k => if k = (1, 2) then some [0, 1, 2] else none⟩
    svFlood msgFlood 3 4 (by decide) (by decide) (by decide) (by decide)
    (by decide) (by decide)

/-- C9: a blacklist read that raises is treated as "not banned"
(`_is_banned` returns false), and the pipeline behaves exactly as with a
successful "not banned" read — flood and filter evaluation proceed. -/
theorem banned_check_fails_open {T : Type} [LinearOrderedAddCommGroup T]
    (tracker : FloodTracker T) (sv : StoreView) (msg : Msg) (now : T)
    (hb : msg.isBot = false) (hs : msg.isService = false)
    (he : sv.blacklistRead = .error ()) :
    isBanned sv.blacklistRead = false ∧
    checkMessages tracker sv msg now =
      checkMessages tracker { sv with blacklistRead := .ok false } msg now ∧
    ∃ rest, (checkMessages tracker sv msg now).trace =
      Stage.banCheck :: Stage.floodIncrement :: rest := by
  refine ⟨by rw [he]; rfl, by unfold checkMessages; rw [he]; rfl, ?_⟩
  unfold checkMessages
  rw [hb, hs, he]
  by_cases hl : parseFloodLimit sv.floodLimitRead <
      (tracker.increment msg.chatId msg.userId now).1 <;>
    simp [isBanned, hl]

/-- C9 witness: the fail-open statement at a concrete erroring store
view. -/
theorem banned_check_fails_open_witness :
    isBanned (StoreView.blacklistRead ⟨.error (), some 3, [], .ok []⟩) = false ∧
    checkMessages tracker0 ⟨.error (), some 3, [], .ok []⟩ msgFlood (0 : ℤ) =
      checkMessages tracker0
        { (⟨.error (), some 3, [], .ok []⟩ : StoreView) with
          blacklistRead := .ok false } msgFlood (0 : ℤ) ∧
    ∃ rest, (checkMessages tracker0 ⟨.error (), some 3, [], .ok []⟩ msgFlood
        (0 : ℤ)).trace = Stage.banCheck :: Stage.floodIncrement :: rest :=
  banned_check_fails_open tracker0 ⟨.error (), some 3, [], .ok []⟩ msgFlood 0
    (by decide) (by decide) rfl

/-- C5 counterexample: with the filter mapping iterating as
`[("bb", "replyB"), ("aa", "replyA")]` and text "aa bb", the pipeline
replies with "replyB" (iteration order), while scanning in trigger-sorted
order as the claim states would reply "replyA". -/
theorem filter_sorted_order_cex :
    (checkMessages tracker0 svFilters msgFilters (0 : ℤ)).actions =
      [BotAction.sendReply "replyB"] ∧
    filterScanLexSpec [("bb", "replyB"), ("aa", "replyA")]
      (strLower (textOrCaption msgFilters.text msgFilters.caption)) =
      some "replyA" ∧
    ("replyB" : String) ≠ "replyA" := by
  decide

/-- C5 (amended): filter evaluation lowercases the message text (empty
string when no text or caption is present), scans the filter entries in
the mapping's iteration order, and replies with the reply text of the
first entry whose lowercased trigger is nonempty and a substring of the
lowercased text (so matching is case-insensitive: trigger "spam" matches
"No Spamming here"); when no trigger matches, no reply is produced. -/
theorem filter_scan_first_match :
    (∀ (fm : List (String × String)) (lowered : String),
      filterScan fm lowered =
        Option.map Prod.snd (fm.find? (fun p =>
          (!(strLower p.1).isEmpty) && strContains lowered (strLower p.1)))) ∧
    textOrCaption none none = "" ∧
    filterScan [("spam", "r")]
      (strLower (textOrCaption (some "No Spamming here") none)) = some "r" := by
  refine ⟨?_, rfl, by decide⟩
  intro fm lowered
  induction fm with
  | nil => rfl
  | cons p rest ih =>
    rw [filterScan]
    by_cases h : (!(strLower p.1).isEmpty) && strContains lowered (strLower p.1) <;>
      simp [List.find?, h, ih]

/-- C6: a user outside the global admin set invoking `add_filter` gets the
denial response and the store — the filter table included — is returned
unchanged. -/
theorem non_admin_add_filter_no_mutation (s : Store) (userId chatId : ℤ)
    (args : List String) (setOk : Bool) (h : userId ∉ s.admins) :
    addFilter s (goodAdminRead s userId) chatId args setOk =
      (Response.denial, s) := by
  unfold addFilter gatedCommand goodAdminRead isAdminOfRead
  have hc : s.admins.contains userId = false := by
    simpa using h
  rw [hc]
  rfl

/-- C6 witness: user 2 (not in the admin set of `store0`) attempting to
add a filter in chat 5. -/
theorem non_admin_add_filter_no_mutation_witness :
    addFilter store0 (goodAdminRead store0 2) 5 ["x", "y"] true =
      (Response.denial, store0) :=
  non_admin_add_filter_no_mutation store0 2 5 ["x", "y"] true (by decide)

lemma formattedName_ne_empty (u : TgUser) : formattedName u ≠ "" := by
  intro h
  have hlen := congrArg String.length h
  simp only [formattedName, String.length_append] at hlen
  have h1 : (")" : String).length = 1 := rfl
  have h2 : (" (" : String).length = 2 := rfl
  have h3 : ("" : String).length = 0 := rfl
  rw [h1, h2, h3] at hlen
  omega

lemma historyToList_concat (raw : List String) (f : String) (hf : f ≠ "") :
    historyToList (some (raw ++ [f])) = historyToList (some raw) ++ [f] := by
  have hfe : f.isEmpty = false := by
    rw [Bool.eq_false_iff]
    intro hcon
    exact hf ((String.isEmpty_iff f).mp hcon)
  simp [historyToList, List.filter_append, hfe]

/-- C7: name-history recording deduplicates adjacent entries only:
recording appends exactly when the formatted name differs from the most
recent entry, so recording the same name twice appends once, and
recording a different name afterwards appends a second, distinct
entry. -/
theorem name_history_adjacent_dedup (u v : TgUser) (raw : List String)
    (hu : u.isBot = false) (hv : v.isBot = false)
    (hne : formattedName v ≠ formattedName u) :
    ((historyToList (some raw)).getLast? = some (formattedName u) →
      appendNameHistory u raw = raw) ∧
    ((historyToList (some raw)).getLast? ≠ some (formattedName u) →
      appendNameHistory u raw = raw ++ [formattedName u]) ∧
    appendNameHistory u (appendNameHistory u raw) = appendNameHistory u raw ∧
    appendNameHistory v (appendNameHistory u raw) =
      appendNameHistory u raw ++ [formattedName v] := by
  have hfu := formattedName_ne_empty u
  by_cases h : (historyToList (some raw)).getLast? = some (formattedName u)
  · refine ⟨fun _ => by simp [appendNameHistory, hu, h], fun hcon => absurd h hcon,
      by simp [appendNameHistory, hu, h], ?_⟩
    have hvlast : (historyToList (some raw)).getLast? ≠ some (formattedName v) := by
      rw [h]
      simp only [ne_eq, Option.some.injEq]
      intro hcon
      exact hne hcon.symm
    simp [appendNameHistory, hu, hv, h, hvlast]
    exact fun hcon => hne hcon.symm
  · have happ : appendNameHistory u raw = raw ++ [formattedName u] := by
      simp [appendNameHistory, hu, h]
    have hlast : (historyToList (some (raw ++ [formattedName u]))).getLast? =
        some (formattedName u) := by
      rw [historyToList_concat raw _ hfu, List.getLast?_concat]
    refine ⟨fun hcon => absurd hcon h, fun _ => happ, ?_, ?_⟩
    · rw [happ]
      simp [appendNameHistory, hu, hlast]
    · rw [happ]
      have hvlast : (historyToList (some (raw ++ [formattedName u]))).getLast? ≠
          some (formattedName v) := by
        rw [hlast]
        simp only [ne_eq, Option.some.injEq]
        intro hcon
        exact hne hcon.symm
      simp [appendNameHistory, hv, hvlast]

/-- C7 witness: two users with distinct formatted names recording into an
empty history. -/
theorem name_history_adjacent_dedup_witness :
    ((historyToList (some ([] : List String))).getLast? =
        some (formattedName ⟨7, some "Ann", none, none, false⟩) →
      appendNameHistory ⟨7, some "Ann", none, none, false⟩ [] = []) ∧
    ((historyToList (some ([] : List String))).getLast? ≠
        some (formattedName ⟨7, some "Ann", none, none, false⟩) →
      appendNameHistory ⟨7, some "Ann", none, none, false⟩ [] =
        [] ++ [formattedName ⟨7, some "Ann", none, none, false⟩]) ∧
    appendNameHistory ⟨7, some "Ann", none, none, false⟩
        (appendNameHistory ⟨7, some "Ann", none, none, false⟩ []) =
      appendNameHistory ⟨7, some "Ann", none, none, false⟩ [] ∧
    appendNameHistory ⟨7, some "Bob", none, none, false⟩
        (appendNameHistory ⟨7, some "Ann", none, none, false⟩ []) =
      appendNameHistory ⟨7, some "Ann", none, none, false⟩ [] ++
        [formattedName ⟨7, some "Bob", none, none, false⟩] :=
  name_history_adjacent_dedup ⟨7, some "Ann", none, none, false⟩
    ⟨7, some "Bob", none, none, false⟩ [] (by decide) (by decide) (by decide)

/-- C10: an `admins` read that raises makes `_is_admin` return false, so
every command guarded by the admin gate replies with the denial response
and leaves the store untouched. -/
theorem admin_gate_fails_closed :
    isAdminOfRead (.error ()) = false ∧
    ∀ (body : Store → Response × Store) (s : Store),
      gatedCommand (.error ()) body s = (Response.denial, s) :=
  ⟨rfl, fun _ _ => rfl⟩

